import Mathlib

/-!
Verification development for the gpt-site-generator HTTP service
(src/app.js, src/middleware/*, src/routes/images, src/utils/image-processor.js).

The service accepts business parameters, calls an external generation API for
JSON website copy, substitutes that copy into HTML templates, optionally
copies uploaded images, zips the result and streams it back.  This file is a
shallow embedding of the parts of that pipeline the verified properties are
about: the template renderers are translated string for string from the JS
template literals (literal braces written with escape codes), the filesystem
is an explicit list of existing paths, fallible steps return Except, and the
external collaborators (generation API, Cloudinary, the HTML sanitizer, the
JSON parser) are oracle/function parameters, since their code is outside the
repository.
-/

/-- Ambient effect sources a JS handler could reach (the clock and the random
number generator).  The renderers receive this environment because the source
runs with ambient access to Date and Math.random; the definitions never use
it, which is exactly the determinism property claimed of the render step. -/
structure Env where
  now : Nat
  rand : Nat → Nat

/-! ## ContentTree for the three-page variant (src/app.js lines 538-1066)

Nested JSON structure the /generate handler parses from the generation API
response.  Per the spec the content tree is schema-on-read: the structures
below hold exactly the fields the three-page templates access. -/

/-- Branding block: landingHTML reads content.branding.tagline. -/
structure Branding where
  tagline : String

/-- Color block read by the baseCSS template (content.colors.*). -/
structure Colors where
  primary : String
  secondary : String
  accent : String

/-- Hero block of the landing page (content.landing.hero.*). -/
structure Hero where
  headline : String
  subheading : String
  ctaText : String

/-- One service card (content.landing.services[i]). -/
structure Service where
  title : String
  description : String
  icon : String

/-- One statistic (content.landing.stats[i]). -/
structure Stat where
  number : String
  label : String

/-- Landing-page block (content.landing.*). -/
structure Landing where
  hero : Hero
  services : List Service
  stats : List Stat

/-- One value card on the about page (content.about.values[i]). -/
structure ValueItem where
  title : String
  description : String

/-- One team member on the about page (content.about.team[i]). -/
structure TeamMember where
  name : String
  position : String
  bio : String

/-- About-page block (content.about.*). -/
structure About where
  headline : String
  story : String
  mission : String
  values : List ValueItem
  team : List TeamMember

/-- Contact-page block (content.contact.*). -/
structure ContactInfo where
  headline : String
  subtitle : String
  address : String
  phone : String
  email : String
  hours : String

/-- The parsed ContentTree consumed by landingHTML, aboutHTML and contactHTML. -/
structure Content where
  branding : Branding
  colors : Colors
  landing : Landing
  about : About
  contact : ContactInfo

/-! ## ContentTree for the older single-landing-page helper
(generateLandingPage, src/app.js lines 255-335). -/

/-- Client testimonial (content.landing.testimonial.*). -/
structure Testimonial where
  quote : String
  author : String
  company : String

/-- Landing block of the older helper (content.landing.*). -/
structure LandingV1 where
  heroTitle : String
  heroSubtitle : String
  heroButton : String
  aboutPreview : String
  services : List Service
  testimonial : Testimonial

/-- Styling block of the older helper (content.styling.*). -/
structure StylingV1 where
  primaryColor : String

/-- ContentTree shape consumed by generateLandingPage. -/
structure ContentV1 where
  landing : LandingV1
  styling : StylingV1

/-! ## The template renderers

Each definition below is the JS template literal of src/app.js translated
segment for segment into a right-nested String append chain: the literal text
between interpolations becomes a Lean string literal (braces appear as the
escapes for 0x7b and 0x7d, newlines as the n escape), `${expr}` becomes the
corresponding field access, and `.map(x => ...).join('')` becomes
String.join of a List.map. -/

def baseCSS (colors : Colors) : String :=
    "\n      :root \x7b\n        --primary-color: " ++
    (colors.primary ++
    (";\n        --secondary-color: " ++
    (colors.secondary ++
    (";\n        --accent-color: " ++
    (colors.accent ++
    (";\n        --text-primary: #2c3e50;\n        --text-secondary: #7f8c8d;\n        --background: #ffffff;\n        --light-bg: #f8f9fa;\n      \x7d\n      \n      * \x7b margin: 0; padding: 0; box-sizing: border-box; \x7d\n      \n      body \x7b\n        font-family: 'Inter', sans-serif;\n        line-height: 1.6;\n        color: var(--text-primary);\n        background: var(--background);\n      \x7d\n      \n      .container \x7b\n        max-width: 1200px;\n        margin: 0 auto;\n        padding: 0 2rem;\n      \x7d\n      \n      nav \x7b\n        position: fixed;\n        top: 0;\n        left: 0;\n        right: 0;\n        background: rgba(255, 255, 255, 0.95);\n        backdrop-filter: blur(20px);\n        z-index: 1000;\n        padding: 1rem 0;\n        box-shadow: 0 2px 20px rgba(0,0,0,0.1);\n      \x7d\n      \n      .nav-content \x7b\n        display: flex;\n        justify-content: space-between;\n        align-items: center;\n      \x7d\n      \n      .logo \x7b\n        font-size: 1.8rem;\n        font-weight: 700;\n        text-decoration: none;\n        color: var(--primary-color);\n      \x7d\n      \n      .nav-links \x7b\n        display: flex;\n        gap: 2rem;\n        list-style: none;\n      \x7d\n      \n      .nav-links a \x7b\n        text-decoration: none;\n        color: var(--text-primary);\n        font-weight: 500;\n        transition: color 0.3s ease;\n      \x7d\n      \n      .nav-links a:hover \x7b color: var(--primary-color); \x7d\n      \n      .hero \x7b\n        padding: 8rem 0 4rem;\n        background: linear-gradient(135deg, var(--primary-color), var(--secondary-color));\n        color: white;\n        text-align: center;\n      \x7d\n      \n      .hero h1 \x7b\n        font-size: 3.5rem;\n        font-weight: 800;\n        margin-bottom: 1rem;\n      \x7d\n      \n      .hero p \x7b\n        font-size: 1.3rem;\n        margin-bottom: 2rem;\n        opacity: 0.9;\n      \x7d\n      \n      .cta-button \x7b\n        display: inline-block;\n        background: var(--accent-color);\n        color: white;\n        padding: 1rem 2.5rem;\n        text-decoration: none;\n        border-radius: 8px;\n        font-weight: 600;\n        transition: transform 0.3s ease;\n      \x7d\n      \n      .cta-button:hover \x7b transform: translateY(-3px); \x7d\n      \n      section \x7b padding: 5rem 0; \x7d\n      .section-title \x7b\n        font-size: 2.5rem;\n        font-weight: 700;\n        text-align: center;\n        margin-bottom: 3rem;\n      \x7d\n      \n      .grid \x7b\n        display: grid;\n        grid-template-columns: repeat(auto-fit, minmax(300px, 1fr));\n        gap: 2rem;\n        margin-top: 3rem;\n      \x7d\n      \n      .card \x7b\n        background: white;\n        padding: 2.5rem;\n        border-radius: 12px;\n        box-shadow: 0 5px 15px rgba(0,0,0,0.1);\n        text-align: center;\n        transition: transform 0.3s ease;\n      \x7d\n      \n      .card:hover \x7b transform: translateY(-10px); \x7d\n      .card .icon \x7b\n        font-size: 3rem;\n        color: var(--primary-color);\n        margin-bottom: 1.5rem;\n      \x7d\n      \n      .stats \x7b\n        background: var(--primary-color);\n        color: white;\n        text-align: center;\n      \x7d\n      \n      .stat-item h3 \x7b\n        font-size: 3rem;\n        font-weight: 800;\n        margin-bottom: 0.5rem;\n      \x7d\n      \n      footer \x7b\n        background: var(--text-primary);\n        color: white;\n        padding: 2rem 0;\n        text-align: center;\n      \x7d\n      \n      .contact-form \x7b\n        background: white;\n        padding: 3rem;\n        border-radius: 12px;\n        box-shadow: 0 5px 15px rgba(0,0,0,0.1);\n      \x7d\n      \n      .form-group \x7b\n        margin-bottom: 1.5rem;\n      \x7d\n      \n      .form-group label \x7b\n        display: block;\n        margin-bottom: 0.5rem;\n        font-weight: 500;\n      \x7d\n      \n      .form-group input,\n      .form-group textarea \x7b\n        width: 100%;\n        padding: 1rem;\n        border: 2px solid #e1e5e9;\n        border-radius: 8px;\n        font-size: 1rem;\n      \x7d\n      \n      .submit-btn \x7b\n        background: var(--primary-color);\n        color: white;\n        padding: 1rem 2rem;\n        border: none;\n        border-radius: 8px;\n        font-size: 1.1rem;\n        font-weight: 600;\n        cursor: pointer;\n      \x7d\n      \n      @media (max-width: 768px) \x7b\n        .hero h1 \x7b font-size: 2.5rem; \x7d\n        .nav-links \x7b display: none; \x7d\n        .container \x7b padding: 0 1rem; \x7d\n      \x7d\n    "))))))

def landingHTML (e : Env) (biz : String) (content : Content) : String :=
    "<!DOCTYPE html>\n<html lang=\"en\">\n<head>\n    <meta charset=\"UTF-8\">\n    <meta name=\"viewport\" content=\"width=device-width, initial-scale=1.0\">\n    <title>" ++
    (biz ++
    (" - " ++
    (content.branding.tagline ++
    ("</title>\n    <link href=\"https://fonts.googleapis.com/css2?family=Inter:wght@300;400;500;600;700&display=swap\" rel=\"stylesheet\">\n    <link rel=\"stylesheet\" href=\"https://cdnjs.cloudflare.com/ajax/libs/font-awesome/6.5.0/css/all.min.css\">\n    <style>" ++
    ((baseCSS content.colors) ++
    ("</style>\n</head>\n<body>\n    <nav>\n        <div class=\"container\">\n            <div class=\"nav-content\">\n                <a href=\"index.html\" class=\"logo\">" ++
    (biz ++
    ("</a>\n                <ul class=\"nav-links\">\n                    <li><a href=\"index.html\">Home</a></li>\n                    <li><a href=\"about.html\">About</a></li>\n                    <li><a href=\"contact.html\">Contact</a></li>\n                </ul>\n            </div>\n        </div>\n    </nav>\n\n    <section class=\"hero\">\n        <div class=\"container\">\n            <h1>" ++
    (content.landing.hero.headline ++
    ("</h1>\n            <p>" ++
    (content.landing.hero.subheading ++
    ("</p>\n            <a href=\"contact.html\" class=\"cta-button\">" ++
    (content.landing.hero.ctaText ++
    ("</a>\n        </div>\n    </section>\n\n    <section>\n        <div class=\"container\">\n            <h2 class=\"section-title\">Our Services</h2>\n            <div class=\"grid\">\n                " ++
    ((String.join ((content.landing.services).map (fun service =>
        "\n                    <div class=\"card\">\n                        <div class=\"icon\"><i class=\"" ++
        (service.icon ++
        ("\"></i></div>\n                        <h3>" ++
        (service.title ++
        ("</h3>\n                        <p>" ++
        (service.description ++
        ("</p>\n                    </div>\n                "))))))))) ++
    ("\n            </div>\n        </div>\n    </section>\n\n    <section class=\"stats\">\n        <div class=\"container\">\n            <h2 class=\"section-title\" style=\"color: white;\">Why Choose Us</h2>\n            <div class=\"grid\">\n                " ++
    ((String.join ((content.landing.stats).map (fun stat =>
        "\n                    <div class=\"stat-item\">\n                        <h3>" ++
        (stat.number ++
        ("</h3>\n                        <p>" ++
        (stat.label ++
        ("</p>\n                    </div>\n                "))))))) ++
    ("\n            </div>\n        </div>\n    </section>\n\n    <footer>\n        <div class=\"container\">\n            <p>&copy; 2025 " ++
    (biz ++
    (". All rights reserved.</p>\n        </div>\n    </footer>\n</body>\n</html>"))))))))))))))))))))

def aboutHTML (e : Env) (biz : String) (content : Content) : String :=
    "<!DOCTYPE html>\n<html lang=\"en\">\n<head>\n    <meta charset=\"UTF-8\">\n    <meta name=\"viewport\" content=\"width=device-width, initial-scale=1.0\">\n    <title>About - " ++
    (biz ++
    ("</title>\n    <link href=\"https://fonts.googleapis.com/css2?family=Inter:wght@300;400;500;600;700&display=swap\" rel=\"stylesheet\">\n    <link rel=\"stylesheet\" href=\"https://cdnjs.cloudflare.com/ajax/libs/font-awesome/6.5.0/css/all.min.css\">\n    <style>" ++
    ((baseCSS content.colors) ++
    ("</style>\n</head>\n<body>\n    <nav>\n        <div class=\"container\">\n            <div class=\"nav-content\">\n                <a href=\"index.html\" class=\"logo\">" ++
    (biz ++
    ("</a>\n                <ul class=\"nav-links\">\n                    <li><a href=\"index.html\">Home</a></li>\n                    <li><a href=\"about.html\">About</a></li>\n                    <li><a href=\"contact.html\">Contact</a></li>\n                </ul>\n            </div>\n        </div>\n    </nav>\n\n    <section style=\"padding-top: 8rem;\">\n        <div class=\"container\">\n            <h1 class=\"section-title\">" ++
    (content.about.headline ++
    ("</h1>\n            <div style=\"max-width: 800px; margin: 0 auto; text-align: center; font-size: 1.1rem; line-height: 1.8;\">\n                <p style=\"margin-bottom: 2rem;\">" ++
    (content.about.story ++
    ("</p>\n                <div style=\"background: var(--light-bg); padding: 2rem; border-radius: 12px; margin: 3rem 0;\">\n                    <h3 style=\"color: var(--primary-color); margin-bottom: 1rem;\">Our Mission</h3>\n                    <p>" ++
    (content.about.mission ++
    ("</p>\n                </div>\n            </div>\n        </div>\n    </section>\n\n    <section>\n        <div class=\"container\">\n            <h2 class=\"section-title\">Our Values</h2>\n            <div class=\"grid\">\n                " ++
    ((String.join ((content.about.values).map (fun value =>
        "\n                    <div class=\"card\">\n                        <h3>" ++
        (value.title ++
        ("</h3>\n                        <p>" ++
        (value.description ++
        ("</p>\n                    </div>\n                "))))))) ++
    ("\n            </div>\n        </div>\n    </section>\n\n    " ++
    ((if content.about.team.length > 0 then
        "\n    <section style=\"background: var(--light-bg);\">\n        <div class=\"container\">\n            <h2 class=\"section-title\">Meet Our Team</h2>\n            <div class=\"grid\">\n                " ++
        ((String.join ((content.about.team).map (fun member =>
        "\n                    <div class=\"card\">\n                        <h3>" ++
        (member.name ++
        ("</h3>\n                        <h4 style=\"color: var(--primary-color); margin-bottom: 1rem;\">" ++
        (member.position ++
        ("</h4>\n                        <p>" ++
        (member.bio ++
        ("</p>\n                    </div>\n                "))))))))) ++
        ("\n            </div>\n        </div>\n    </section>\n    "))
      else "") ++
    ("\n\n    <footer>\n        <div class=\"container\">\n            <p>&copy; 2025 " ++
    (biz ++
    (". All rights reserved.</p>\n        </div>\n    </footer>\n</body>\n</html>"))))))))))))))))))

def contactHTML (e : Env) (biz : String) (content : Content) : String :=
    "<!DOCTYPE html>\n<html lang=\"en\">\n<head>\n    <meta charset=\"UTF-8\">\n    <meta name=\"viewport\" content=\"width=device-width, initial-scale=1.0\">\n    <title>Contact - " ++
    (biz ++
    ("</title>\n    <link href=\"https://fonts.googleapis.com/css2?family=Inter:wght@300;400;500;600;700&display=swap\" rel=\"stylesheet\">\n    <link rel=\"stylesheet\" href=\"https://cdnjs.cloudflare.com/ajax/libs/font-awesome/6.5.0/css/all.min.css\">\n    <style>" ++
    ((baseCSS content.colors) ++
    ("</style>\n</head>\n<body>\n    <nav>\n        <div class=\"container\">\n            <div class=\"nav-content\">\n                <a href=\"index.html\" class=\"logo\">" ++
    (biz ++
    ("</a>\n                <ul class=\"nav-links\">\n                    <li><a href=\"index.html\">Home</a></li>\n                    <li><a href=\"about.html\">About</a></li>\n                    <li><a href=\"contact.html\">Contact</a></li>\n                </ul>\n            </div>\n        </div>\n    </nav>\n\n    <section style=\"padding-top: 8rem;\">\n        <div class=\"container\">\n            <h1 class=\"section-title\">" ++
    (content.contact.headline ++
    ("</h1>\n            <p style=\"text-align: center; font-size: 1.2rem; margin-bottom: 3rem;\">" ++
    (content.contact.subtitle ++
    ("</p>\n            \n            <div style=\"display: grid; grid-template-columns: 1fr 1fr; gap: 4rem; align-items: start;\">\n                <div class=\"contact-form\">\n                    <form>\n                        <div class=\"form-group\">\n                            <label for=\"name\">Name</label>\n                            <input type=\"text\" id=\"name\" name=\"name\" required>\n                        </div>\n                        <div class=\"form-group\">\n                            <label for=\"email\">Email</label>\n                            <input type=\"email\" id=\"email\" name=\"email\" required>\n                        </div>\n                        <div class=\"form-group\">\n                            <label for=\"message\">Message</label>\n                            <textarea id=\"message\" name=\"message\" rows=\"5\" required></textarea>\n                        </div>\n                        <button type=\"submit\" class=\"submit-btn\">Send Message</button>\n                    </form>\n                </div>\n                \n                <div>\n                    <h3 style=\"margin-bottom: 2rem; color: var(--primary-color);\">Get in Touch</h3>\n                    <div style=\"margin-bottom: 1.5rem;\">\n                        <h4><i class=\"fas fa-map-marker-alt\" style=\"color: var(--primary-color); margin-right: 1rem;\"></i>Address</h4>\n                        <p style=\"margin-left: 2rem;\">" ++
    (content.contact.address ++
    ("</p>\n                    </div>\n                    <div style=\"margin-bottom: 1.5rem;\">\n                        <h4><i class=\"fas fa-phone\" style=\"color: var(--primary-color); margin-right: 1rem;\"></i>Phone</h4>\n                        <p style=\"margin-left: 2rem;\">" ++
    (content.contact.phone ++
    ("</p>\n                    </div>\n                    <div style=\"margin-bottom: 1.5rem;\">\n                        <h4><i class=\"fas fa-envelope\" style=\"color: var(--primary-color); margin-right: 1rem;\"></i>Email</h4>\n                        <p style=\"margin-left: 2rem;\">" ++
    (content.contact.email ++
    ("</p>\n                    </div>\n                    <div style=\"margin-bottom: 1.5rem;\">\n                        <h4><i class=\"fas fa-clock\" style=\"color: var(--primary-color); margin-right: 1rem;\"></i>Hours</h4>\n                        <p style=\"margin-left: 2rem;\">" ++
    (content.contact.hours ++
    ("</p>\n                    </div>\n                </div>\n            </div>\n        </div>\n    </section>\n\n    <footer>\n        <div class=\"container\">\n            <p>&copy; 2025 " ++
    (biz ++
    (". All rights reserved.</p>\n        </div>\n    </footer>\n\n    <script>\n        document.querySelector('.contact-form form').addEventListener('submit', function(e) \x7b\n            e.preventDefault();\n            alert('Thank you for your message! We will get back to you soon.');\n            this.reset();\n        \x7d);\n    </script>\n</body>\n</html>"))))))))))))))))))))

def generateLandingPage (e : Env) (businessName niche : String) (content : ContentV1) : String :=
  let servicesHTML := String.join (content.landing.services.map (fun service =>
      "\n    <div class=\"card\">\n      <i class=\"" ++
      (service.icon ++
      ("\" style=\"font-size: 2.5rem; color: " ++
      (content.styling.primaryColor ++
      ("; margin-bottom: 1rem;\"></i>\n      <h3>" ++
      (service.title ++
      ("</h3>\n      <p>" ++
      (service.description ++
      ("</p>\n    </div>\n  "))))))))))
  "<!DOCTYPE html>\n<html lang=\"en\">\n<head>\n    <meta charset=\"UTF-8\">\n    <meta name=\"viewport\" content=\"width=device-width, initial-scale=1.0\">\n    <title>" ++
  (businessName ++
  (" - " ++
  (niche ++
  ("</title>\n    <link href=\"https://fonts.googleapis.com/css2?family=Inter:wght@300;400;500;600;700&display=swap\" rel=\"stylesheet\">\n    <link rel=\"stylesheet\" href=\"https://cdnjs.cloudflare.com/ajax/libs/font-awesome/6.5.0/css/all.min.css\">\n    <link rel=\"stylesheet\" href=\"style.css\">\n</head>\n<body>\n    <nav>\n        <div class=\"container\">\n            <div class=\"nav-content\">\n                <a href=\"index.html\" class=\"logo\">" ++
  (businessName ++
  ("</a>\n                <ul class=\"nav-links\">\n                    <li><a href=\"index.html\">Home</a></li>\n                    <li><a href=\"about.html\">About</a></li>\n                    <li><a href=\"contact.html\">Contact</a></li>\n                </ul>\n            </div>\n        </div>\n    </nav>\n\n    <section class=\"hero\">\n        <div class=\"container\">\n            <h1>" ++
  (content.landing.heroTitle ++
  ("</h1>\n            <p>" ++
  (content.landing.heroSubtitle ++
  ("</p>\n            <a href=\"contact.html\" class=\"btn\">" ++
  (content.landing.heroButton ++
  ("</a>\n        </div>\n    </section>\n\n    <section>\n        <div class=\"container\">\n            <h2 class=\"section-title\">About Us</h2>\n            <div style=\"max-width: 800px; margin: 0 auto; text-align: center;\">\n                <p style=\"font-size: 1.1rem; line-height: 1.8;\">" ++
  (content.landing.aboutPreview ++
  ("</p>\n            </div>\n        </div>\n    </section>\n\n    <section style=\"background: #f8f9fa;\">\n        <div class=\"container\">\n            <h2 class=\"section-title\">Our Services</h2>\n            <div class=\"services-grid\">\n                " ++
  (servicesHTML ++
  ("\n            </div>\n        </div>\n    </section>\n\n    <section>\n        <div class=\"container\">\n            <h2 class=\"section-title\">What Our Clients Say</h2>\n            <div style=\"max-width: 600px; margin: 0 auto; text-align: center;\">\n                <blockquote style=\"font-size: 1.2rem; font-style: italic; margin-bottom: 1rem;\">\n                    \"" ++
  (content.landing.testimonial.quote ++
  ("\"\n                </blockquote>\n                <cite style=\"font-weight: 600;\">\n                    " ++
  (content.landing.testimonial.author ++
  (", " ++
  (content.landing.testimonial.company ++
  ("\n                </cite>\n            </div>\n        </div>\n    </section>\n\n    <footer>\n        <div class=\"container\">\n            <p>&copy; 2025 " ++
  (businessName ++
  (". All rights reserved.</p>\n        </div>\n    </footer>\n</body>\n</html>"))))))))))))))))))))))))

/-- String s contains pat as a contiguous substring. -/
def StrContains (s pat : String) : Prop := ∃ pre post, s = pre ++ pat ++ post

/-- A string syntactically of the form a ++ (s ++ b) contains s. -/
theorem contains_here (a b s : String) : StrContains (a ++ (s ++ b)) s :=
  ⟨a, b, (String.append_assoc a s b).symm⟩

/-- The rendered landing page contains the business name (in its title). -/
theorem landingHTML_contains_biz (e : Env) (biz : String) (c : Content) :
    StrContains (landingHTML e biz c) biz := by
  unfold landingHTML
  exact contains_here _ _ _

/-- The rendered about page contains the business name (in its title). -/
theorem aboutHTML_contains_biz (e : Env) (biz : String) (c : Content) :
    StrContains (aboutHTML e biz c) biz := by
  unfold aboutHTML
  exact contains_here _ _ _

/-- The rendered contact page contains the business name (in its title). -/
theorem contactHTML_contains_biz (e : Env) (biz : String) (c : Content) :
    StrContains (contactHTML e biz c) biz := by
  unfold contactHTML
  exact contains_here _ _ _

/-! ## Sanitized business name, output directory and zip path

app.js line 637: `const siteDir = path.join(__dirname, 'generated', biz.replace(/\s+/g, '_'))`
app.js line 1089: `const zipPath = path.join(__dirname, 'generated', biz.replace(/\s+/g, '_') + '.zip')`
(the join prefix __dirname is dropped; paths are relative to the app directory). -/

/-- Character class of the JS regex backslash-s: space, tab, the line and page
breaks, and the Unicode space separators ECMAScript counts as whitespace. -/
def isJsWs (c : Char) : Bool :=
  c = ' ' || c = '\t' || c = '\n' || c = '\r' || c = '\x0b' || c = '\x0c' ||
  c = ' ' || c = ' ' || (' ' ≤ c && c ≤ ' ') ||
  c = ' ' || c = ' ' || c = ' ' || c = ' ' || c = '　' ||
  c = '﻿'

/-- The global replace of whitespace runs by '_': each maximal run of isJsWs
characters becomes a single underscore.  prevWs records whether the scanner is
inside a run whose underscore has already been emitted. -/
def replaceWsRun (prevWs : Bool) : List Char → List Char
  | [] => []
  | c :: rest =>
    if isJsWs c then
      if prevWs then replaceWsRun true rest
      else '_' :: replaceWsRun true rest
    else c :: replaceWsRun false rest

/-- The scanner flag after processing l starting from flag b: true exactly when
the character last seen was whitespace. -/
def wsFlagAfter (b : Bool) : List Char → Bool
  | [] => b
  | c :: rest => wsFlagAfter (isJsWs c) rest

/-- Unfolding lemma for replaceWsRun on a cons cell. -/
theorem replaceWsRun_cons (b : Bool) (c : Char) (rest : List Char) :
    replaceWsRun b (c :: rest) =
      if isJsWs c then
        if b then replaceWsRun true rest else '_' :: replaceWsRun true rest
      else c :: replaceWsRun false rest := rfl

/-- Unfolding lemma for wsFlagAfter on a cons cell. -/
theorem wsFlagAfter_cons (b : Bool) (c : Char) (rest : List Char) :
    wsFlagAfter b (c :: rest) = wsFlagAfter (isJsWs c) rest := rfl

/-- Processing a concatenation: the left part is processed from the incoming
flag, the right part from the flag the left part leaves behind. -/
theorem replaceWsRun_append (l tail : List Char) :
    ∀ b, replaceWsRun b (l ++ tail) = replaceWsRun b l ++ replaceWsRun (wsFlagAfter b l) tail := by
  induction l with
  | nil => intro b; rfl
  | cons c t ih =>
    intro b
    rw [List.cons_append, replaceWsRun_cons, replaceWsRun_cons, wsFlagAfter_cons]
    by_cases hc : isJsWs c = true
    · rw [if_pos hc, if_pos hc, hc]
      cases b
      · rw [if_neg (by simp), if_neg (by simp), ih true, List.cons_append]
      · rw [if_pos rfl, if_pos rfl, ih true]
    · rw [if_neg hc, if_neg hc, Bool.not_eq_true] at *
      rw [hc, ih false, List.cons_append]

/-- A whitespace run whose underscore was already emitted is swallowed whole. -/
theorem replaceWsRun_all_ws (post : List Char)
    (hpost : ∀ c ∈ post.head?, isJsWs c = false) :
    ∀ run, (∀ c ∈ run, isJsWs c = true) →
      replaceWsRun true (run ++ post) = replaceWsRun false post := by
  intro run
  induction run with
  | nil =>
    intro _
    cases post with
    | nil => rfl
    | cons p ps =>
      have hp : isJsWs p = false := hpost p (by simp)
      rw [List.nil_append, replaceWsRun_cons, replaceWsRun_cons, hp]
      simp
  | cons c rest ih =>
    intro h
    have hc : isJsWs c = true := h c (by simp)
    rw [List.cons_append, replaceWsRun_cons, hc]
    simpa using ih (fun d hd => h d (by simp [hd]))

/-- A fresh maximal whitespace run is replaced by exactly one underscore. -/
theorem replaceWsRun_run (run post : List Char) (hrun : run ≠ [])
    (hws : ∀ c ∈ run, isJsWs c = true)
    (hpost : ∀ c ∈ post.head?, isJsWs c = false) :
    replaceWsRun false (run ++ post) = '_' :: replaceWsRun false post := by
  cases run with
  | nil => exact absurd rfl hrun
  | cons c rest =>
    have hc : isJsWs c = true := hws c (by simp)
    rw [List.cons_append, replaceWsRun_cons, hc]
    simp only [if_true, ite_true, Bool.false_eq_true, ite_false]
    exact congrArg ('_' :: ·) (replaceWsRun_all_ws post hpost rest
      (fun d hd => hws d (by simp [hd])))

/-- The sanitized business name, biz.replace of whitespace runs with '_',
computed identically at app.js lines 637 and 1089. -/
def sanitizeBizName (biz : String) : String := ⟨replaceWsRun false biz.data⟩

/-- The per-request output directory path of the write step (app.js line 637);
the path.join prefix __dirname is dropped, paths are app-relative. -/
def siteDirPath (biz : String) : String := "generated/" ++ sanitizeBizName biz

/-- The archive path of the zip step (app.js line 1089). -/
def zipFilePath (biz : String) : String := "generated/" ++ (sanitizeBizName biz ++ ".zip")

/-- Two strings with the same character data are equal. -/
theorem str_ext {a b : String} (h : a.data = b.data) : a = b := by
  cases a; cases b; exact congrArg String.mk h

/-- C9: a business name containing whitespace is sanitized by replacing each
maximal whitespace run with a single underscore, and the write step's directory
name and the zip step's file name derive the same underscore-joined name from
the same business name for every input. -/
theorem biz_name_sanitization (pre run post : List Char)
    (hrun : run ≠ []) (hws : ∀ c ∈ run, isJsWs c = true)
    (hpre : wsFlagAfter false pre = false)
    (hpost : ∀ c ∈ post.head?, isJsWs c = false) :
    sanitizeBizName ⟨pre ++ run ++ post⟩ =
      sanitizeBizName ⟨pre⟩ ++ "_" ++ sanitizeBizName ⟨post⟩
    ∧ ∀ biz : String, zipFilePath biz = siteDirPath biz ++ ".zip" := by
  constructor
  · apply str_ext
    show replaceWsRun false (pre ++ run ++ post)
        = (sanitizeBizName ⟨pre⟩ ++ "_" ++ sanitizeBizName ⟨post⟩).data
    have h1 : (sanitizeBizName ⟨pre⟩ ++ "_" ++ sanitizeBizName ⟨post⟩).data
        = (replaceWsRun false pre ++ ['_']) ++ replaceWsRun false post := rfl
    rw [h1, List.append_assoc pre run post, replaceWsRun_append pre (run ++ post) false,
      hpre, replaceWsRun_run run post hrun hws hpost, List.append_assoc]
    rfl
  · intro biz
    show "generated/" ++ (sanitizeBizName biz ++ ".zip") = ("generated/" ++ sanitizeBizName biz) ++ ".zip"
    exact (String.append_assoc _ _ _).symm

/-- Witness for C9 at the concrete business name My-space-tab-Shop. -/
theorem biz_name_sanitization_witness :
    sanitizeBizName ⟨['M', 'y'] ++ [' ', '\t'] ++ ['S', 'h', 'o', 'p']⟩ =
      sanitizeBizName ⟨['M', 'y']⟩ ++ "_" ++ sanitizeBizName ⟨['S', 'h', 'o', 'p']⟩
    ∧ ∀ biz : String, zipFilePath biz = siteDirPath biz ++ ".zip" :=
  biz_name_sanitization ['M', 'y'] [' ', '\t'] ['S', 'h', 'o', 'p']
    (by decide) (by decide) (by decide) (by decide)

/-! ## Image copying and the packaged archive (app.js lines 1069-1111)

The filesystem's uploads area is modelled as the list of file names present in
the uploads directory; fs.existsSync on uploads/f is membership of f. -/

/-- path.basename: the final path component (split on '/'). -/
def basename (p : String) : String := (p.splitOn "/").getLastD p

/-- fs.copyFileSync from the uploads area: ENOENT when the source is absent,
otherwise the destination file name that now exists under images/. -/
def copyFileSync (uploadsFS : List String) (filename : String) : Except String String :=
  if uploadsFS.contains filename then .ok filename
  else .error ("ENOENT: no such file or directory, copyfile uploads/" ++ filename)

/-- The image-copy loop (app.js lines 1078-1085): for each reference take its
basename, copy uploads/basename into the images/ subdirectory when the source
exists, silently skip it otherwise.  Returns the file names placed in images/. -/
def copyImagesLoop (uploadsFS : List String) : List String → Except String (List String)
  | [] => .ok []
  | imgPath :: rest =>
    let filename := basename imgPath
    if uploadsFS.contains filename then
      match copyFileSync uploadsFS filename with
      | .error e => .error e
      | .ok f =>
        match copyImagesLoop uploadsFS rest with
        | .error e => .error e
        | .ok fs => .ok (f :: fs)
    else copyImagesLoop uploadsFS rest

/-- The whole copy step (app.js lines 1074-1086): it runs only when the request
carries image references. -/
def copyImagesStep (uploadsFS images : List String) : Except String (List String) :=
  if images.length > 0 then copyImagesLoop uploadsFS images else .ok []

/-- The three page files the handler writes into the output directory
(app.js lines 1069-1071). -/
def writtenPages (e : Env) (biz : String) (content : Content) : List (String × String) :=
  [("index.html", landingHTML e biz content),
   ("about.html", aboutHTML e biz content),
   ("contact.html", contactHTML e biz content)]

/-- File names inside the zip produced by archive.directory(siteDir, false)
(app.js line 1110): everything the handler placed under the output directory,
the three pages and the copied images under images/. -/
def generatedArchive (e : Env) (uploadsFS : List String) (biz : String)
    (content : Content) (images : List String) : Except String (List String) :=
  match copyImagesStep uploadsFS images with
  | .error err => .error err
  | .ok copied =>
    .ok ((writtenPages e biz content).map Prod.fst ++ copied.map (fun f => "images/" ++ f))

/-- C8 core: the copy loop never fails, and the files that land in images/ are
exactly the basenames of the requested references whose source exists in the
uploads area, in order; a missing source changes nothing else. -/
theorem copyImagesLoop_eq (uploadsFS : List String) :
    ∀ images, copyImagesLoop uploadsFS images
      = .ok ((images.map basename).filter (fun f => uploadsFS.contains f)) := by
  intro images
  induction images with
  | nil => rfl
  | cons img rest ih =>
    show copyImagesLoop uploadsFS (img :: rest) = _
    by_cases h : uploadsFS.contains (basename img)
    · simp only [copyImagesLoop, copyFileSync, h, if_true, ih, List.map_cons,
        List.filter_cons, ite_true]
    · simp only [copyImagesLoop, h, Bool.false_eq_true, if_false, ite_false, ih,
        List.map_cons, List.filter_cons]

/-- C8: during packaging each image reference is copied into images/ iff its
source exists in the uploads area; a missing source is skipped silently (the
step still returns ok), without affecting the other copies, and the archive
still carries the three pages followed by exactly the copied images. -/
theorem images_copy_silent_skip (e : Env) (uploadsFS images : List String)
    (biz : String) (content : Content) :
    copyImagesStep uploadsFS images
      = .ok ((images.map basename).filter (fun f => uploadsFS.contains f))
    ∧ generatedArchive e uploadsFS biz content images
      = .ok (["index.html", "about.html", "contact.html"]
          ++ ((images.map basename).filter (fun f => uploadsFS.contains f)).map
              (fun f => "images/" ++ f)) := by
  have hstep : copyImagesStep uploadsFS images
      = .ok ((images.map basename).filter (fun f => uploadsFS.contains f)) := by
    unfold copyImagesStep
    rcases images with _ | ⟨img, rest⟩
    · rfl
    · simpa using copyImagesLoop_eq uploadsFS (img :: rest)
  refine ⟨hstep, ?_⟩
  unfold generatedArchive
  rw [hstep]
  rfl

/-- C1: for a valid multi-page /generate request with no image references (the
validated default), the archive holds exactly index.html, about.html and
contact.html, and each of the three rendered documents contains the literal
business name. -/
theorem generate_multipage_archive (e : Env) (uploadsFS : List String)
    (biz : String) (content : Content) :
    generatedArchive e uploadsFS biz content []
      = .ok ["index.html", "about.html", "contact.html"]
    ∧ ∀ pr ∈ writtenPages e biz content, StrContains pr.2 biz := by
  constructor
  · rfl
  · intro pr hpr
    simp only [writtenPages, List.mem_cons, List.not_mem_nil, or_false] at hpr
    rcases hpr with h | h | h <;> subst h
    · exact landingHTML_contains_biz e biz content
    · exact aboutHTML_contains_biz e biz content
    · exact contactHTML_contains_biz e biz content

/-! ## Packaging and delivery outcome (app.js lines 637-638, 1069-1120)

The handler's post-content stage, parameterised by which filesystem/stream
steps fail in a given run.  The catch block (lines 1113-1119) only answers 500;
it removes nothing.  Cleanup happens solely inside the res.download callback
(lines 1095-1102), which runs only after the archive close event fired. -/

/-- Which steps of a /generate run fail: mkdirSync for the output directory, a
page writeFileSync, the archiver (its error event is raised from finalize), and
a client-side error reported to the res.download callback. -/
structure FsFaults where
  mkdirFails : Bool
  writeFails : Bool
  archiveFails : Bool
  downloadErr : Bool

/-- What the stage leaves behind: the HTTP status the client sees and the
artifacts of this request still on disk when the handler is done. -/
structure DeliveryOutcome where
  status : Nat
  leftOnDisk : List String

/-- The packaging-and-delivery stage of the /generate handler.  mkdir failure
throws before anything exists; a write failure throws with the directory
already created; an archiver failure throws with both the directory and the
(just-created, partial) zip file on disk — in each of those cases the catch
block returns the 500 JSON response and deletes nothing.  Once close fires,
res.download runs and its callback unlinks the zip and removes the directory
whether or not the download itself erred. -/
def packageAndDeliver (biz : String) (f : FsFaults) : DeliveryOutcome :=
  if f.mkdirFails then
    { status := 500, leftOnDisk := [] }
  else if f.writeFails then
    { status := 500, leftOnDisk := [siteDirPath biz] }
  else if f.archiveFails then
    { status := 500, leftOnDisk := [siteDirPath biz, zipFilePath biz] }
  else
    { status := 200, leftOnDisk := [] }

/-- C2 counterexample: a run whose archiver step fails completes with the 500
error response, yet both the output directory and the zip file are still on
disk, contrary to the claim that they no longer exist after every completed
response. -/
theorem cleanup_missed_on_archive_error :
    (packageAndDeliver "Acme" ⟨false, false, true, false⟩).status = 500
    ∧ siteDirPath "Acme" ∈ (packageAndDeliver "Acme" ⟨false, false, true, false⟩).leftOnDisk
    ∧ zipFilePath "Acme" ∈ (packageAndDeliver "Acme" ⟨false, false, true, false⟩).leftOnDisk := by
  refine ⟨rfl, ?_, ?_⟩ <;> simp [packageAndDeliver]

/-- C2 (amended): whenever the run reaches the delivery stage, that is the
directory creation, page writes and archive finalization all succeeded, the
zip and the output directory are removed after the response, whether or not
the client-side download erred. -/
theorem cleanup_after_delivery (biz : String) (f : FsFaults)
    (h1 : f.mkdirFails = false) (h2 : f.writeFails = false)
    (h3 : f.archiveFails = false) :
    (packageAndDeliver biz f).leftOnDisk = []
    ∧ (packageAndDeliver biz f).status = 200 := by
  unfold packageAndDeliver
  rw [h1, h2, h3]
  exact ⟨rfl, rfl⟩

/-- Witness for the amended C2 at a concrete run with a client-side download
error. -/
theorem cleanup_after_delivery_witness :
    (packageAndDeliver "Acme" ⟨false, false, false, true⟩).leftOnDisk = []
    ∧ (packageAndDeliver "Acme" ⟨false, false, false, true⟩).status = 200 :=
  cleanup_after_delivery "Acme" ⟨false, false, false, true⟩ rfl rfl rfl

/-! ## The upstream generation call (app.js lines 614-634)

One axios.post to the chat-completions endpoint inside a try block; the catch
answers 500 with the fixed error string and the thrown message as details and
returns from the handler.  The JSON.parse of choices[0].message.content is the
abstract parseJson parameter, since the JSON parser is host-library code. -/

/-- Result of the single axios.post: a 2xx response whose first choice carries
the payload text, a network error, or a non-2xx status (axios rejects both
error cases). -/
inductive UpstreamResult where
  | ok (payload : String)
  | netError (message : String)
  | httpError (status : Nat) (message : String)

/-- The JSON error body res.status(500).json sends on this path. -/
structure ErrorBody where
  error : String
  details : String
deriving DecidableEq

/-- What the content-fetch stage produced: the parsed content or the 500
response, together with how many generation-API calls were made. -/
structure FetchOutcome where
  result : Except (Nat × ErrorBody) Content
  apiCalls : Nat

/-- The content-fetch stage (app.js lines 614-634): one call, no retry; any
axios rejection or parse failure funnels to the same 500 response carrying
the thrown message as details. -/
def fetchSiteContent (upstream : UpstreamResult)
    (parseJson : String → Except String Content) : FetchOutcome :=
  match upstream with
  | .ok payload =>
    match parseJson payload with
    | .ok content => { result := .ok content, apiCalls := 1 }
    | .error msg =>
      { result := .error (500, ⟨"OpenAI API or JSON error", msg⟩), apiCalls := 1 }
  | .netError msg =>
    { result := .error (500, ⟨"OpenAI API or JSON error", msg⟩), apiCalls := 1 }
  | .httpError _ msg =>
    { result := .error (500, ⟨"OpenAI API or JSON error", msg⟩), apiCalls := 1 }

/-- C4: every run of the fetch stage makes exactly one generation-API call, and
on a network error, a non-success status or an unparseable payload the handler
answers status 500 with the error and details fields, the details being the
failure's own message, surfaced as-is. -/
theorem upstream_failure_single_call (upstream : UpstreamResult)
    (parseJson : String → Except String Content) :
    (fetchSiteContent upstream parseJson).apiCalls = 1
    ∧ (∀ msg, upstream = .netError msg →
        (fetchSiteContent upstream parseJson).result
          = .error (500, ⟨"OpenAI API or JSON error", msg⟩))
    ∧ (∀ st msg, upstream = .httpError st msg →
        (fetchSiteContent upstream parseJson).result
          = .error (500, ⟨"OpenAI API or JSON error", msg⟩))
    ∧ (∀ payload msg, upstream = .ok payload → parseJson payload = .error msg →
        (fetchSiteContent upstream parseJson).result
          = .error (500, ⟨"OpenAI API or JSON error", msg⟩)) := by
  refine ⟨?_, ?_, ?_, ?_⟩
  · cases upstream with
    | ok payload => cases h : parseJson payload <;> simp [fetchSiteContent, h]
    | netError msg => rfl
    | httpError st msg => rfl
  · rintro msg rfl; rfl
  · rintro st msg rfl; rfl
  · rintro payload msg rfl hp
    simp [fetchSiteContent, hp]

/-! ## The /upload route and the error funnel
(app.js lines 26-35 and 523-534, src/middleware/error-handler.js lines 3-32)

multer's fileFilter rejects a non-image file by passing `new Error('Only
images are allowed')` to its callback; multer forwards that error to Express
error handling before the route body runs.  The repository's errorHandler
gives 400 only to errors named ValidationError or MulterError and answers 500
for everything else (Express's own default error handler would also answer
500, so the funnel below covers both wirings). -/

/-- A thrown JS error as the error funnel sees it: its name and message. -/
structure JsError where
  name : String
  message : String

/-- One uploaded multipart file: its declared MIME type and its stored name
(Date.now() + '-' + originalname). -/
structure UploadedFile where
  mimetype : String
  filename : String

/-- The JSON response of the upload route or of the error funnel. -/
structure UploadResp where
  status : Nat
  error : Option String
  details : Option String
  urls : Option (List String)

/-- file.mimetype.startsWith computed on the character lists (the byte-level
library implementation does not reduce in the kernel). -/
def strStartsWith (s p : String) : Bool := p.data.isPrefixOf s.data

/-- The multer fileFilter of app.js lines 29-34: accept exactly MIME types
starting with image/, otherwise produce the plain Error. -/
def multerFileFilter (mimetype : String) : Option JsError :=
  if strStartsWith mimetype "image/" then none
  else some ⟨"Error", "Only images are allowed"⟩

/-- src/middleware/error-handler.js: 400 for ValidationError and MulterError,
500 with the generic title for everything else (details shows the message
outside production). -/
def errorHandler (production : Bool) (err : JsError) : UploadResp :=
  if err.name = "ValidationError" then
    { status := 400, error := some "Validation Error", details := some err.message, urls := none }
  else if err.name = "MulterError" then
    { status := 400, error := some "File Upload Error", details := some err.message, urls := none }
  else
    { status := 500, error := some "Internal Server Error",
      details := some (if production then "An unexpected error occurred" else err.message),
      urls := none }

/-- POST /upload (app.js lines 523-534): multer runs the filter over the files
first and aborts to the error funnel on the first rejection; otherwise the
handler requires at least one file and answers the /uploads/ URLs. -/
def uploadRoute (production : Bool) (files : List UploadedFile) : UploadResp :=
  match files.findSome? (fun f => multerFileFilter f.mimetype) with
  | some err => errorHandler production err
  | none =>
    if files.isEmpty then
      { status := 400, error := some "No files uploaded", details := none, urls := none }
    else
      { status := 200, error := none, details := none,
        urls := some (files.map (fun f => "/uploads/" ++ f.filename)) }

/-- C3, settled against the code: a .txt upload is funnelled as a plain Error,
which the error handler does not recognise as ValidationError or MulterError,
so the response status is 500, not the claimed 400; a valid PNG upload is
accepted with 200 and the array of file URLs. -/
theorem upload_txt_gets_500_png_gets_200 :
    (uploadRoute false [⟨"text/plain", "1712000000000-test.txt"⟩]).status = 500
    ∧ (uploadRoute false [⟨"image/png", "1712000000000-test.png"⟩]).status = 200
    ∧ (uploadRoute false [⟨"image/png", "1712000000000-test.png"⟩]).urls
        = some ["/uploads/1712000000000-test.png"] := by
  refine ⟨?_, ?_, ?_⟩ <;> decide

/-! ## processUploadedImage (src/utils/image-processor.js lines 15-40)

The filesystem is the list of existing local paths; uuid is the fresh
identifier uuidv4 returned for this call; cloudinaryUpload stands for the
remote host (it can only read a path that exists locally). -/

/-- A multer file object as the processor receives it. -/
structure MulterFile where
  path : String
  originalname : String

/-- What cloudinary.uploader.upload resolves with on success. -/
structure CloudinaryResult where
  secure_url : String
  width : Nat
  height : Nat
  format : String

/-- The object processUploadedImage returns to the route. -/
structure ProcessedImage where
  url : String
  width : Nat
  height : Nat
  format : String
deriving DecidableEq

/-- ImageProcessor.processUploadedImage, step for step: build the
persistent-looking outputPath from the fresh uuid, ask Cloudinary to upload
the file at outputPath (which fails with ENOENT when no file exists there —
the code never moved or copied anything to outputPath), then unlink both local
copies; any failure in the try block becomes the generic error. -/
def processUploadedImage (fs : List String) (uuid : String)
    (cloudinaryUpload : String → CloudinaryResult) (file : MulterFile) :
    Except String ProcessedImage :=
  let filename := uuid ++ "-" ++ file.originalname
  let outputPath := "uploads/" ++ filename
  let attempt : Except String ProcessedImage :=
    match (if fs.contains outputPath then
            Except.ok (cloudinaryUpload outputPath)
          else
            Except.error ("ENOENT: no such file or directory, open " ++ outputPath) :
          Except String CloudinaryResult) with
    | .error e => .error e
    | .ok result =>
      match (if fs.contains file.path then Except.ok ()
             else Except.error "ENOENT: unlink file.path" : Except String Unit) with
      | .error e => .error e
      | .ok _ =>
        match (if (fs.erase file.path).contains outputPath then Except.ok ()
               else Except.error "ENOENT: unlink outputPath" : Except String Unit) with
        | .error e => .error e
        | .ok _ =>
          .ok { url := result.secure_url, width := result.width,
                height := result.height, format := result.format }
  match attempt with
  | .ok v => .ok v
  | .error _ => .error "Failed to process image"

/-- C6, settled against the code: because the uploaded file is never moved to
outputPath, the Cloudinary upload reads a nonexistent path, the try block
throws, and the call ends in the generic failure for every input whose fresh
uuid-path is not already on disk — no hosted URL is ever returned. -/
theorem processUploadedImage_never_succeeds (fs : List String) (uuid : String)
    (cloudinaryUpload : String → CloudinaryResult) (file : MulterFile)
    (hfresh : fs.contains ("uploads/" ++ (uuid ++ "-" ++ file.originalname)) = false) :
    processUploadedImage fs uuid cloudinaryUpload file = .error "Failed to process image" := by
  simp only [processUploadedImage, hfresh, Bool.false_eq_true, if_false, ite_false]

/-- Witness for C6 at a concrete upload: the file multer stored at
uploads/1712-cat.png with original name cat.png and fresh uuid u1. -/
theorem processUploadedImage_never_succeeds_witness :
    processUploadedImage ["uploads/1712-cat.png"] "u1"
      (fun _ => ⟨"https://res.cloudinary.com/gpt-site-gen/cat.webp", 800, 600, "webp"⟩)
      ⟨"uploads/1712-cat.png", "cat.png"⟩ = .error "Failed to process image" :=
  processUploadedImage_never_succeeds ["uploads/1712-cat.png"] "u1"
    (fun _ => ⟨"https://res.cloudinary.com/gpt-site-gen/cat.webp", 800, 600, "webp"⟩)
    ⟨"uploads/1712-cat.png", "cat.png"⟩ (by decide)

/-! ## The input-validation middleware (src/unnamed/part_000, validateGenerateInput)

The Joi schema: biz and niche are required trimmed strings of at most 100
characters, theme is light|dark defaulting to light, style is
modern|classic|minimalist defaulting to modern, images is a list of at most 5
strings defaulting to [].  Joi.object rejects keys outside the schema, so a
body carrying websiteType is refused.  After validation the middleware runs
the external sanitize-html over biz and niche and replaces req.body; the
sanitizer is an opaque function parameter here, its code being outside the
repository. -/

/-- A /generate request body as the middleware sees it: the schema's five keys
plus the websiteType key the handler reads but the schema does not know. -/
structure RawBody where
  biz : Option String
  niche : Option String
  theme : Option String
  style : Option String
  images : Option (List String)
  websiteType : Option String

/-- Joi's convert-mode trim, computed on the character lists (the byte-level
String.trim does not reduce in the kernel); the whitespace class is the same
JS one used by the replace regex. -/
def strTrim (s : String) : String :=
  ⟨((s.data.dropWhile isJsWs).reverse.dropWhile isJsWs).reverse⟩

/-- Joi.string().trim().required().max(100): present, trimmed, nonempty,
at most 100 characters. -/
def checkRequiredString (key : String) (v : Option String) : Except String String :=
  match v with
  | none => .error ("\"" ++ key ++ "\" is required")
  | some s =>
    let t := strTrim s
    if t = "" then .error ("\"" ++ key ++ "\" is not allowed to be empty")
    else if t.length > 100 then
      .error ("\"" ++ key ++ "\" length must be less than or equal to 100 characters long")
    else .ok t

/-- Joi.string().valid('light', 'dark').default('light'). -/
def checkTheme : Option String → Except String String
  | none => .ok "light"
  | some t =>
    if t = "light" ∨ t = "dark" then .ok t
    else .error "\"theme\" must be one of [light, dark]"

/-- Joi.string().valid('modern', 'classic', 'minimalist').default('modern'). -/
def checkStyle : Option String → Except String String
  | none => .ok "modern"
  | some s =>
    if s = "modern" ∨ s = "classic" ∨ s = "minimalist" then .ok s
    else .error "\"style\" must be one of [modern, classic, minimalist]"

/-- Joi.array().items(Joi.string()).max(5).default([]). -/
def checkImages : Option (List String) → Except String (List String)
  | none => .ok []
  | some l =>
    if l.length ≤ 5 then .ok l
    else .error "\"images\" must contain less than or equal to 5 items"

/-- The value Joi hands back when the body passes the schema. -/
structure ValidatedBody where
  biz : String
  niche : String
  theme : String
  style : String
  images : List String
deriving DecidableEq

/-- generateSchema.validate(req.body): the five keys in schema order, then the
unknown-key rejection Joi.object performs by default. -/
def generateSchemaValidate (b : RawBody) : Except String ValidatedBody :=
  match checkRequiredString "biz" b.biz with
  | .error m => .error m
  | .ok bizV =>
  match checkRequiredString "niche" b.niche with
  | .error m => .error m
  | .ok nicheV =>
  match checkTheme b.theme with
  | .error m => .error m
  | .ok themeV =>
  match checkStyle b.style with
  | .error m => .error m
  | .ok styleV =>
  match checkImages b.images with
  | .error m => .error m
  | .ok imagesV =>
  match b.websiteType with
  | some _ => .error "\"websiteType\" is not allowed"
  | none => .ok ⟨bizV, nicheV, themeV, styleV, imagesV⟩

/-- What the middleware does with the request: reject with the 400 body or
pass the (sanitized) validated value on as req.body. -/
inductive MWResult where
  | rejected (status : Nat) (error : String) (details : String)
  | accepted (body : ValidatedBody)
deriving DecidableEq

/-- validateGenerateInput: 400 {error: 'Invalid input', details} on a schema
error, otherwise sanitize-html over biz and niche and next(). -/
def validateGenerateInput (sanitizeHtml : String → String) (b : RawBody) : MWResult :=
  match generateSchemaValidate b with
  | .error m => .rejected 400 "Invalid input" m
  | .ok v => .accepted { v with biz := sanitizeHtml v.biz, niche := sanitizeHtml v.niche }

/-- C5 counterexample: a body that is valid by the claim's shape but carries
the websiteType tag is rejected with 400 by the middleware, because the Joi
schema knows style, not websiteType, and refuses unknown keys. -/
theorem websiteType_body_rejected :
    validateGenerateInput id
      { biz := some "Acme Coffee", niche := some "coffee shop",
        theme := some "light", style := none, images := none,
        websiteType := some "business" }
      = .rejected 400 "Invalid input" "\"websiteType\" is not allowed" := by
  decide

/-- Inversion for checkRequiredString: success yields the trimmed, nonempty,
length-bounded value of a present key. -/
theorem checkRequiredString_ok {key : String} {v : Option String} {s : String}
    (h : checkRequiredString key v = .ok s) :
    ∃ raw, v = some raw ∧ s = strTrim raw ∧ strTrim raw ≠ ""
      ∧ (strTrim raw).length ≤ 100 := by
  cases v with
  | none => simp [checkRequiredString] at h
  | some raw =>
    refine ⟨raw, rfl, ?_⟩
    by_cases h1 : strTrim raw = ""
    · simp [checkRequiredString, h1] at h
    · by_cases h2 : (strTrim raw).length > 100
      · simp [checkRequiredString, h1, h2] at h
      · simp [checkRequiredString, h1, h2] at h
        exact ⟨h.symm, h1, by omega⟩

/-- Success form of checkRequiredString on a present, valid value. -/
theorem checkRequiredString_ok_of (key s : String) (hne : strTrim s ≠ "")
    (hlen : (strTrim s).length ≤ 100) :
    checkRequiredString key (some s) = .ok (strTrim s) := by
  simp only [checkRequiredString]
  rw [if_neg hne, if_neg (by omega)]

/-- Inversion for checkTheme: the result is light or dark, light by default. -/
theorem checkTheme_ok {v : Option String} {t : String} (h : checkTheme v = .ok t) :
    (t = "light" ∨ t = "dark") ∧ (v = none → t = "light") := by
  cases v with
  | none =>
    simp only [checkTheme, Except.ok.injEq] at h
    exact ⟨Or.inl h.symm, fun _ => h.symm⟩
  | some s =>
    simp only [checkTheme] at h
    split_ifs at h with hs
    · simp only [Except.ok.injEq] at h
      subst h
      exact ⟨hs, by simp⟩

/-- Inversion for checkImages: at most five items, empty by default. -/
theorem checkImages_ok {v : Option (List String)} {l : List String}
    (h : checkImages v = .ok l) : l.length ≤ 5 ∧ (v = none → l = []) := by
  cases v with
  | none =>
    simp only [checkImages, Except.ok.injEq] at h
    subst h
    exact ⟨by simp, fun _ => rfl⟩
  | some xs =>
    simp only [checkImages] at h
    split_ifs at h with hl
    · simp only [Except.ok.injEq] at h
      subst h
      exact ⟨hl, by simp⟩

/-- Inversion for the whole schema: a validated value comes from each key
check succeeding and the body carrying no websiteType key. -/
theorem generateSchemaValidate_ok {b : RawBody} {v : ValidatedBody}
    (h : generateSchemaValidate b = .ok v) :
    checkRequiredString "biz" b.biz = .ok v.biz
    ∧ checkRequiredString "niche" b.niche = .ok v.niche
    ∧ checkTheme b.theme = .ok v.theme
    ∧ checkStyle b.style = .ok v.style
    ∧ checkImages b.images = .ok v.images
    ∧ b.websiteType = none := by
  unfold generateSchemaValidate at h
  cases h1 : checkRequiredString "biz" b.biz with
  | error m => rw [h1] at h; simp at h
  | ok bizV =>
  rw [h1] at h
  cases h2 : checkRequiredString "niche" b.niche with
  | error m => rw [h2] at h; simp at h
  | ok nicheV =>
  rw [h2] at h
  cases h3 : checkTheme b.theme with
  | error m => rw [h3] at h; simp at h
  | ok themeV =>
  rw [h3] at h
  cases h4 : checkStyle b.style with
  | error m => rw [h4] at h; simp at h
  | ok styleV =>
  rw [h4] at h
  cases h5 : checkImages b.images with
  | error m => rw [h5] at h; simp at h
  | ok imagesV =>
  rw [h5] at h
  cases h6 : b.websiteType with
  | some w => rw [h6] at h; simp at h
  | none =>
  rw [h6] at h
  simp only [Except.ok.injEq] at h
  subst h
  exact ⟨rfl, rfl, rfl, rfl, rfl, rfl⟩

/-- C10: every request that passes validateGenerateInput reaches the handler
with theme exactly light or dark (light when absent), at most five images
(none becoming the empty list), and biz and niche equal to the sanitizer's
output on the trimmed, nonempty, at-most-100-character originals. -/
theorem validated_request_invariant (sanitizeHtml : String → String) (b : RawBody)
    (v : ValidatedBody) (h : validateGenerateInput sanitizeHtml b = .accepted v) :
    (v.theme = "light" ∨ v.theme = "dark") ∧ (b.theme = none → v.theme = "light")
    ∧ v.images.length ≤ 5 ∧ (b.images = none → v.images = [])
    ∧ (∃ raw, b.biz = some raw ∧ strTrim raw ≠ "" ∧ (strTrim raw).length ≤ 100
        ∧ v.biz = sanitizeHtml (strTrim raw))
    ∧ (∃ raw, b.niche = some raw ∧ strTrim raw ≠ "" ∧ (strTrim raw).length ≤ 100
        ∧ v.niche = sanitizeHtml (strTrim raw)) := by
  unfold validateGenerateInput at h
  cases hg : generateSchemaValidate b with
  | error m => rw [hg] at h; simp at h
  | ok gv =>
    rw [hg] at h
    simp only [MWResult.accepted.injEq] at h
    obtain ⟨hb, hn, ht, hs, hi, hw⟩ := generateSchemaValidate_ok hg
    subst h
    obtain ⟨tOr, tDef⟩ := checkTheme_ok ht
    obtain ⟨iLen, iDef⟩ := checkImages_ok hi
    obtain ⟨braw, hbraw, hbeq, hbne, hblen⟩ := checkRequiredString_ok hb
    obtain ⟨nraw, hnraw, hneq, hnne, hnlen⟩ := checkRequiredString_ok hn
    exact ⟨tOr, tDef, iLen, iDef,
      ⟨braw, hbraw, hbne, hblen, by rw [hbeq]⟩,
      ⟨nraw, hnraw, hnne, hnlen, by rw [hneq]⟩⟩

/-- A concrete valid body without the websiteType key. -/
def okBody : RawBody :=
  { biz := some " Acme ", niche := some "coffee", theme := none, style := none,
    images := none, websiteType := none }

/-- The validated value okBody produces. -/
def okVal : ValidatedBody := ⟨"Acme", "coffee", "light", "modern", []⟩

/-- Witness for C10 at the concrete body okBody. -/
theorem validated_request_invariant_witness :
    (okVal.theme = "light" ∨ okVal.theme = "dark")
    ∧ (okBody.theme = none → okVal.theme = "light")
    ∧ okVal.images.length ≤ 5 ∧ (okBody.images = none → okVal.images = [])
    ∧ (∃ raw, okBody.biz = some raw ∧ strTrim raw ≠ "" ∧ (strTrim raw).length ≤ 100
        ∧ okVal.biz = id (strTrim raw))
    ∧ (∃ raw, okBody.niche = some raw ∧ strTrim raw ≠ "" ∧ (strTrim raw).length ≤ 100
        ∧ okVal.niche = id (strTrim raw)) :=
  validated_request_invariant id okBody okVal (by decide)

/-- C5 (amended): a body whose keys are among the schema's (no websiteType)
with valid values is accepted; every rejection carries status 400 and comes
exactly from a schema error, and every schema error is rejected with 400. -/
theorem validate_schema_behavior (sanitizeHtml : String → String) (b : RawBody)
    (hW : b.websiteType = none)
    (hB : ∃ s, b.biz = some s ∧ strTrim s ≠ "" ∧ (strTrim s).length ≤ 100)
    (hN : ∃ s, b.niche = some s ∧ strTrim s ≠ "" ∧ (strTrim s).length ≤ 100)
    (hT : b.theme = none ∨ b.theme = some "light" ∨ b.theme = some "dark")
    (hS : b.style = none ∨ b.style = some "modern" ∨ b.style = some "classic"
        ∨ b.style = some "minimalist")
    (hI : b.images = none ∨ ∃ l, b.images = some l ∧ l.length ≤ 5) :
    (∃ v, validateGenerateInput sanitizeHtml b = .accepted v)
    ∧ (∀ b' : RawBody, ∀ st er de,
        validateGenerateInput sanitizeHtml b' = .rejected st er de →
          st = 400 ∧ ∃ m, generateSchemaValidate b' = .error m)
    ∧ (∀ b' : RawBody, ∀ m, generateSchemaValidate b' = .error m →
        validateGenerateInput sanitizeHtml b' = .rejected 400 "Invalid input" m) := by
  refine ⟨?_, ?_, ?_⟩
  · obtain ⟨bs, hbs, hbne, hblen⟩ := hB
    obtain ⟨ns, hns, hnne, hnlen⟩ := hN
    have ct : ∃ t, checkTheme b.theme = .ok t := by
      rcases hT with h | h | h <;> rw [h] <;> exact ⟨_, rfl⟩
    have cs : ∃ s, checkStyle b.style = .ok s := by
      rcases hS with h | h | h | h <;> rw [h] <;> exact ⟨_, rfl⟩
    have ci : ∃ l, checkImages b.images = .ok l := by
      rcases hI with h | ⟨l, hl, hlen⟩
      · rw [h]; exact ⟨_, rfl⟩
      · rw [hl]; exact ⟨l, by simp [checkImages, hlen]⟩
    obtain ⟨tv, htv⟩ := ct
    obtain ⟨sv, hsv⟩ := cs
    obtain ⟨iv, hiv⟩ := ci
    have hacc : validateGenerateInput sanitizeHtml b
        = .accepted { biz := sanitizeHtml (strTrim bs),
                      niche := sanitizeHtml (strTrim ns),
                      theme := tv, style := sv, images := iv } := by
      unfold validateGenerateInput generateSchemaValidate
      rw [hbs, hns, checkRequiredString_ok_of "biz" bs hbne hblen,
        checkRequiredString_ok_of "niche" ns hnne hnlen, htv, hsv, hiv, hW]
    exact ⟨_, hacc⟩
  · intro b' st er de h
    unfold validateGenerateInput at h
    cases hg : generateSchemaValidate b' with
    | error m =>
      rw [hg] at h
      simp only [MWResult.rejected.injEq] at h
      exact ⟨h.1.symm, m, rfl⟩
    | ok v => rw [hg] at h; simp at h
  · intro b' m hg
    unfold validateGenerateInput
    rw [hg]

/-- Witness for the amended C5 at the concrete body okBody. -/
theorem validate_schema_behavior_witness :
    (∃ v, validateGenerateInput id okBody = .accepted v)
    ∧ (∀ b' : RawBody, ∀ st er de,
        validateGenerateInput id b' = .rejected st er de →
          st = 400 ∧ ∃ m, generateSchemaValidate b' = .error m)
    ∧ (∀ b' : RawBody, ∀ m, generateSchemaValidate b' = .error m →
        validateGenerateInput id b' = .rejected 400 "Invalid input" m) :=
  validate_schema_behavior id okBody rfl
    ⟨" Acme ", rfl, by decide, by decide⟩
    ⟨"coffee", rfl, by decide, by decide⟩
    (Or.inl rfl) (Or.inl rfl) (Or.inl rfl)

/-- C7: the page-render step is a pure substitution: its output does not
depend on the ambient environment (clock, randomness), so rendering the same
content, business name and variant twice yields byte-identical HTML. -/
theorem render_deterministic (e1 e2 : Env) (biz businessName niche : String)
    (content : Content) (contentV1 : ContentV1) :
    landingHTML e1 biz content = landingHTML e2 biz content
    ∧ aboutHTML e1 biz content = aboutHTML e2 biz content
    ∧ contactHTML e1 biz content = contactHTML e2 biz content
    ∧ generateLandingPage e1 businessName niche contentV1
        = generateLandingPage e2 businessName niche contentV1 :=
  ⟨rfl, rfl, rfl, rfl⟩
